import Mathlib

/-!
Shallow embedding of the WhatsApp chatbot subscription/payment logic
(app/services/payment_logic.py, app/api/whatsapp.py, app/api/plugnpay.py,
app/db/models.py, app/core/config.py).

Python strings are modelled as `List Char`; nullable columns and optional
arguments as `Option`; timestamps as `Int` (seconds); money/credit counts as
`Int` (Python ints). Each definition mirrors one source function and is noted
with its source location.
-/

namespace WaBot

/-! ## Python string primitives -/

/-- Characters removed by Python `str.strip()` (ASCII whitespace). -/
def pyIsSpace (c : Char) : Bool :=
  c == ' ' || c == '\t' || c == '\n' || c == '\r' || c == '\x0b' || c == '\x0c'

/-- Python `str.strip()`: drop leading and trailing whitespace. -/
def pyStrip (l : List Char) : List Char :=
  ((l.dropWhile pyIsSpace).reverse.dropWhile pyIsSpace).reverse

/-- Python `str.lower()` (ASCII view). -/
def pyLower (l : List Char) : List Char := l.map Char.toLower

/-- Boolean "does `hay` start with `needle`" (Python `str.startswith`). -/
def leadsWith : List Char → List Char → Bool
  | [], _ => true
  | _ :: _, [] => false
  | a :: as, b :: bs => a == b && leadsWith as bs

/-- Python substring test `needle in hay`. -/
def containsSeq (needle : List Char) : List Char → Bool
  | [] => needle.isEmpty
  | c :: rest => leadsWith needle (c :: rest) || containsSeq needle rest

/-- Python `a or b` on optional strings: empty string is falsy. -/
def pyOrStr (a b : Option (List Char)) : Option (List Char) :=
  match a with
  | some s => if s.isEmpty then b else some s
  | none => b

/-! ## Configuration constants (app/core/config.py) -/

/-- config.py:125 `DEFAULT_PAYMENT_CREDITS: int = 50`. -/
def DEFAULT_PAYMENT_CREDITS : Int := 50

/-- config.py:101 `TRIAL_MAX_QUESTIONS: int = 10`. -/
def TRIAL_MAX_QUESTIONS : Int := 10

/-- config.py:102 `TRIAL_CREDITS: int = 10`. -/
def TRIAL_CREDITS : Int := 10

/-- config.py:100 `TRIAL_DAYS: int = 7`. -/
def TRIAL_DAYS : Int := 7

/-! ## Data model (app/db/models.py) -/

/-- A row of the `subscriptions` table (models.py:9-33). Nullable columns are
`Option`; `message_count`, `credits`, `total_purchased` are Python ints. -/
structure Subscription where
  whatsapp_number : List Char
  status : List Char
  plan_name : Option (List Char)
  is_recurring : Bool
  plugnpay_customer_id : Option (List Char)
  credits : Option Int
  total_purchased : Option Int
  message_count : Option Int
  is_trial : Bool
  subscription_start : Option Int
  subscription_end : Option Int
  updated_at : Option Int
deriving DecidableEq

/-! ## Plan table and credit resolution (payment_logic.py) -/

/-- payment_logic.py:23-29 `PLAN_CREDITS`: plan-name substring ->
(credits, is_monthly_subscription), in dict insertion order. -/
def PLAN_CREDITS : List (List Char × Int × Bool) :=
  [("start".toList, 75, true),
   ("active".toList, 150, true),
   ("pro".toList, 300, true),
   ("50".toList, 50, false),
   ("100".toList, 100, false)]

/-- The dict loop of payment_logic.py:37-39: first entry whose key occurs in
`name` as a substring. -/
def findPlan : List (List Char × Int × Bool) → List Char → Option (Int × Bool)
  | [], _ => none
  | (key, cr, im) :: rest, name =>
    if containsSeq key name then some (cr, im) else findPlan rest name

/-- payment_logic.py:32-40 `_plan_credits_from_name`: `(credits, is_monthly)`
for a plan name, `(none, false)` when the name is missing, empty, or matches
no table entry. Python lowercases then strips the name. -/
def plan_credits_from_name (plan_name : Option (List Char)) : Option Int × Bool :=
  match plan_name with
  | none => (none, false)
  | some pn =>
    if pn.isEmpty then (none, false)
    else
      match findPlan PLAN_CREDITS (pyStrip (pyLower pn)) with
      | some (cr, im) => (some cr, im)
      | none => (none, false)

/-! ## Credit checks and consumption (payment_logic.py) -/

/-- payment_logic.py:47-66 `verify_subscription`, evaluated against the row
found for the number (`none` when `get_subscription` found no row) at time
`now`. -/
def verify_subscription (now : Int) (sub? : Option Subscription) : Bool :=
  match sub? with
  | none => false
  | some sub =>
    if sub.status ≠ "active".toList then false
    else if (match sub.subscription_end with
             | some e => decide (e < now)
             | none => false) then false
    else if (match sub.credits with
             | some c => decide (c < 1)
             | none => true) then false
    else if sub.is_trial &&
            decide (TRIAL_MAX_QUESTIONS ≤ sub.message_count.getD 0) then false
    else true

/-- payment_logic.py:77-91 `deduct_credit`: returns the boolean result and the
(possibly unchanged) row state after the call. -/
def deduct_credit (sub? : Option Subscription) : Bool × Option Subscription :=
  match sub? with
  | none => (false, none)
  | some sub =>
    match sub.credits with
    | none => (false, some sub)
    | some c =>
      if c < 1 then (false, some sub)
      else (true, some { sub with
        credits := some (c - 1),
        message_count := some (sub.message_count.getD 0 + 1) })

/-- Iterated `deduct_credit`: the row state after `n` consecutive calls. -/
def deductIter : Nat → Option Subscription → Option Subscription
  | 0, s => s
  | n + 1, s => deductIter n (deduct_credit s).2

/-! ## Phone-number normalization (payment_logic.py:138-159) -/

/-- The character filter of payment_logic.py:148: keep digits and `+`. -/
def filterDigitsPlus (l : List Char) : List Char :=
  l.filter fun c => c.isDigit || c == '+'

/-- payment_logic.py:153-158: the Dutch trunk-zero / bare-mobile rewrites on
the digit string (after the single leading `+` was stripped). -/
def nwTransform (d : List Char) : List Char :=
  if leadsWith ['0'] d && decide (9 ≤ d.length) then '3' :: '1' :: d.tail
  else if decide (9 ≤ d.length) && !leadsWith ['3', '1'] d && leadsWith ['6'] d then
    '3' :: '1' :: d
  else d

/-- payment_logic.py:151-152: strip one leading `+`. -/
def nwStripPlus (d : List Char) : List Char :=
  if leadsWith ['+'] d then d.tail else d

/-- payment_logic.py:159 `return "+" + digits if digits else None`. -/
def nwFinish (d : List Char) : Option (List Char) :=
  if d.isEmpty then none else some ('+' :: d)

/-- payment_logic.py:138-159 `normalize_whatsapp_number` on a string input
(the `value is None` guard is outside this model's domain). -/
def normalize_whatsapp_number (s : List Char) : Option (List Char) :=
  if (pyStrip s).isEmpty then none
  else if (filterDigitsPlus (pyStrip s)).isEmpty then none
  else nwFinish (nwTransform (nwStripPlus (filterDigitsPlus (pyStrip s))))

/-! ## Payment-event handlers (payment_logic.py:162-292) -/

/-- Keyword arguments of `handle_subscription_created`
(payment_logic.py:162-170). -/
structure CreatedArgs where
  plan_name : Option (List Char)
  plugnpay_customer_id : Option (List Char)
  credits : Option Int
  is_recurring : Bool
  subscription_end : Option Int
deriving DecidableEq

/-- payment_logic.py:181-186: the resolved `(credits, is_monthly)` pair —
explicit credits argument first, else the plan-table amount, else
`DEFAULT_PAYMENT_CREDITS`; `is_monthly` comes from the plan table only. -/
def resolveCreated (a : CreatedArgs) : Int × Bool :=
  let pc := plan_credits_from_name a.plan_name
  (match a.credits with
   | some c => c
   | none =>
     match pc.1 with
     | some p => p
     | none => DEFAULT_PAYMENT_CREDITS,
   pc.2)

/-- payment_logic.py:162-228 `handle_subscription_created`, acting on the row
`get_subscription` resolved for the (already normalized) `number`. After the
fallbacks of lines 182-186 the credits value is never `None`, so the
`credits is not None` guard of line 196 always passes. On insert the DB
default `message_count = 0` applies (models.py:24). -/
def handle_subscription_created (number : List Char) (now : Int)
    (a : CreatedArgs) (sub? : Option Subscription) : Subscription :=
  let r := resolveCreated a
  match sub? with
  | some sub =>
    { sub with
      status := "active".toList,
      plan_name := pyOrStr a.plan_name sub.plan_name,
      plugnpay_customer_id := pyOrStr a.plugnpay_customer_id sub.plugnpay_customer_id,
      credits := if r.2 then some r.1 else some (sub.credits.getD 0 + r.1),
      total_purchased := some (sub.total_purchased.getD 0 + r.1),
      is_recurring := a.is_recurring || r.2,
      is_trial := false,
      subscription_start := some (sub.subscription_start.getD now),
      subscription_end := (a.subscription_end).orElse fun _ => sub.subscription_end,
      updated_at := some now }
  | none =>
    { whatsapp_number := number,
      status := "active".toList,
      plan_name := pyOrStr a.plan_name (some "Default Plan".toList),
      plugnpay_customer_id := a.plugnpay_customer_id,
      credits := some r.1,
      total_purchased := some r.1,
      message_count := some 0,
      is_trial := false,
      is_recurring := a.is_recurring || r.2,
      subscription_start := some now,
      subscription_end := a.subscription_end,
      updated_at := none }

/-- payment_logic.py:177-179: the handler first normalizes its raw argument
and raises `ValueError` (here: `none`) when normalization yields nothing. -/
def handle_subscription_created_raw (raw : List Char) (now : Int)
    (a : CreatedArgs) (sub? : Option Subscription) : Option Subscription :=
  (normalize_whatsapp_number raw).map fun number =>
    handle_subscription_created number now a sub?

/-- A sequence of `handle_subscription_created` calls on one identity. -/
def applyCreatedSeq (number : List Char) (now : Int)
    (calls : List CreatedArgs) (s0 : Option Subscription) : Option Subscription :=
  calls.foldl (fun s a => some (handle_subscription_created number now a s)) s0

/-- The sum of the credit grants a sequence of created-events resolves. -/
def sumGrants (calls : List CreatedArgs) : Int :=
  (calls.map fun a => (resolveCreated a).1).sum

/-- Keyword arguments of `handle_subscription_updated`
(payment_logic.py:231-239). -/
structure UpdatedArgs where
  plan_name : Option (List Char)
  status : Option (List Char)
  credits : Option Int
  is_recurring : Option Bool
  subscription_end : Option Int
deriving DecidableEq

/-- payment_logic.py:231-274 `handle_subscription_updated` on the resolved
row. Line 251 re-derives plan credits from `plan_name or sub.plan_name`
(falsy fallback), line 252 uses them only when no explicit credits came in;
the field writes of lines 255-268 use `is not None` tests. -/
def handle_subscription_updated (now : Int) (a : UpdatedArgs)
    (sub? : Option Subscription) : Option Subscription :=
  match sub? with
  | none => none
  | some sub =>
    let pc := plan_credits_from_name (pyOrStr a.plan_name sub.plan_name)
    let credits : Option Int :=
      match a.credits with
      | some c => some c
      | none => pc.1
    let s1 := match a.plan_name with
      | some p => { sub with plan_name := some p }
      | none => sub
    let s2 := match a.status with
      | some st => { s1 with status := st }
      | none => s1
    let s3 := match credits with
      | some c =>
        { s2 with
          credits := if pc.2 then some c else some (s2.credits.getD 0 + c),
          total_purchased := some (s2.total_purchased.getD 0 + c) }
      | none => s2
    let s4 := match a.is_recurring with
      | some r => { s3 with is_recurring := r }
      | none => s3
    let s5 := match a.subscription_end with
      | some e => { s4 with subscription_end := some e }
      | none => s4
    some { s5 with updated_at := some now }

/-- payment_logic.py:277-292 `handle_subscription_cancelled` on the resolved
row. -/
def handle_subscription_cancelled (now : Int)
    (sub? : Option Subscription) : Option Subscription :=
  match sub? with
  | none => none
  | some sub => some { sub with status := "expired".toList, updated_at := some now }

/-! ## Event dispatch (payment_logic.py:295-358) -/

/-- Which handler `process_webhook_event` routes an event type to. -/
inductive WebhookRoute where
  | created
  | updated
  | cancelled
  | unhandled
deriving DecidableEq

/-- The spellings of payment_logic.py:325 routed to
`handle_subscription_created`. -/
def CREATED_EVENTS : List (List Char) :=
  ["subscription_created".toList, "subscription.created".toList,
   "payment_received".toList, "payment.received".toList,
   "new_simple_sale".toList, "order_invoice_created".toList]

/-- The spellings of payment_logic.py:337 routed to
`handle_subscription_updated`. -/
def UPDATED_EVENTS : List (List Char) :=
  ["subscription_updated".toList, "subscription.updated".toList,
   "subscription_renewed".toList]

/-- The spellings of payment_logic.py:349 routed to
`handle_subscription_cancelled`. -/
def CANCELLED_EVENTS : List (List Char) :=
  ["subscription_cancelled".toList, "subscription.cancelled".toList,
   "subscription_canceled".toList]

/-- payment_logic.py:314-354: the routing decision on
`(event_type or "").strip().lower()`. -/
def dispatchEvent (event_type : List Char) : WebhookRoute :=
  let e := pyLower (pyStrip event_type)
  if CREATED_EVENTS.contains e then .created
  else if UPDATED_EVENTS.contains e then .updated
  else if CANCELLED_EVENTS.contains e then .cancelled
  else .unhandled

/-- payment_logic.py:295-358 `process_webhook_event`, restricted to its
routing result: given a payload whose number normalizes, it returns `True`
exactly when the event type matched a handled spelling, and `False`
otherwise (line 353-354); the body never raises (lines 356-358 catch all). -/
def process_webhook_event_handled (event_type : List Char) : Bool :=
  dispatchEvent event_type != .unhandled

/-! ## Inbound chat webhook (app/api/whatsapp.py:94-128) -/

/-- Committed database state, as later requests see it: the
`processed_messages` ids and the `subscriptions` rows that were committed. -/
structure Db where
  processed : List (List Char)
  subs : List Subscription
deriving DecidableEq

/-- whatsapp.py:110 `db.query(Subscription).filter_by(whatsapp_number=sender)`:
exact match on the raw sender string against committed rows (the session has
`autoflush=False`, connection.py:23, and this code never flushes first). -/
def dbFindSub (db : Db) (sender : List Char) : Option Subscription :=
  db.subs.find? fun s => s.whatsapp_number == sender

/-- The trial row built at whatsapp.py:115-123 for an unknown sender; the
stored key is the raw `sender` value, and `TRIAL_DAYS` is in days
(`timedelta(days=trial_days)`, here seconds). Insert defaults of models.py
fill `total_purchased = 0` and `message_count = 0`. -/
def trialSub (sender : List Char) (now : Int) : Subscription :=
  { whatsapp_number := sender,
    status := "active".toList,
    plan_name := some "Trial".toList,
    plugnpay_customer_id := none,
    is_trial := true,
    is_recurring := false,
    credits := some TRIAL_CREDITS,
    total_purchased := some 0,
    message_count := some 0,
    subscription_start := some now,
    subscription_end := some (now + TRIAL_DAYS * 86400),
    updated_at := none }

/-- One delivery of one inbound message through
`_process_webhook_messages` (whatsapp.py:94-128), followed by the request
teardown (`get_db`, connection.py:42-47, closes without committing).
Returns the database state that survives the request and the number of
background `handle_rag_and_reply` tasks queued:
dedup lookup (line 107) sees only committed rows; the
`ProcessedMessage` add (line 109) is only committed when the trial-creation
branch reaches its `db.commit()` (line 125); otherwise the session close
rolls it back. -/
def processOneMessage (db : Db) (message_id sender : List Char) (now : Int) :
    Db × Nat :=
  if db.processed.contains message_id then (db, 0)
  else
    match dbFindSub db sender with
    | some _ => (db, 1)
    | none =>
      ({ processed := message_id :: db.processed,
         subs := trialSub sender now :: db.subs }, 1)

/-- Two deliveries of the same message (provider retry), counting the total
background invocations. -/
def deliverTwice (db : Db) (message_id sender : List Char) (now : Int) :
    Db × Nat :=
  let r1 := processOneMessage db message_id sender now
  let r2 := processOneMessage r1.1 message_id sender now
  (r2.1, r1.2 + r2.2)

/-! ## Storage-failure handling (app/api/plugnpay.py:441-540,
app/api/whatsapp.py:131-166) -/

/-- The Python exception classes the handlers distinguish:
`OperationalError` with a transient connection signature
(`ssl`/`closed`/`connection` in its text), any other `OperationalError`,
and every other `Exception`. -/
inductive PyExc where
  | opTransient
  | opOther
  | appExc
deriving DecidableEq

/-- What one storage attempt (one DB session) does. -/
inductive StorageOutcome where
  | ok
  | failTransient
  | failOther
  | failApp
deriving DecidableEq

/-- The exception a raw storage attempt surfaces, if any. -/
def storageExc : StorageOutcome → Except PyExc Unit
  | .ok => .ok ()
  | .failTransient => .error .opTransient
  | .failOther => .error .opOther
  | .failApp => .error .appExc

/-- payment_logic.py:324-358: `process_webhook_event` wraps every handler
call (including its `db.commit()`) in `try ... except Exception: return
False`, so a storage failure inside event processing never escapes — the
call returns `False` instead. -/
def process_webhook_event_result (o : StorageOutcome) : Except PyExc Bool :=
  match o with
  | .ok => .ok true
  | _ => .ok false

/-- What an HTTP handler invocation produces: a response (status, body
status-word, whether a second session was used), or an exception propagating
to the framework (which turns it into a 5xx). -/
inductive HandlerResult where
  | response (httpStatus : Nat) (bodyStatus : List Char) (retried : Bool)
  | raised (e : PyExc)
deriving DecidableEq

/-- plugnpay.py:508-540: the layered `try` of `plugnpay_webhook` around the
two processing attempts. A first-attempt `OperationalError` with a transient
signature triggers one retry on a fresh session (lines 518-535); an
exception raised inside that `except OperationalError` block is not caught
by the sibling `except Exception` (lines 536-538), so it propagates; a
non-transient `OperationalError` is re-raised (line 535); any other
exception yields a 200 body with status "error" (line 538). -/
def plugnpay_webhook_flow (first retry2 : Except PyExc Bool) : HandlerResult :=
  match first with
  | .ok b => .response 200 (if b then "ok".toList else "ignored".toList) false
  | .error .opTransient =>
    match retry2 with
    | .ok b => .response 200 (if b then "ok".toList else "ignored".toList) true
    | .error e => .raised e
  | .error .opOther => .raised .opOther
  | .error .appExc => .response 200 "error".toList false

/-- plugnpay.py:441-540 `plugnpay_webhook` (after token check and number
extraction), composed with the dispatcher's own catch-all: `o1` is the
storage outcome of the first session's processing, `o2` of the retry
session's. -/
def plugnpay_webhook (o1 o2 : StorageOutcome) : HandlerResult :=
  plugnpay_webhook_flow (process_webhook_event_result o1)
    (process_webhook_event_result o2)

/-- whatsapp.py:131-166 `receive_message`: `_process_webhook_messages` has no
internal catch-all, so its storage exceptions reach the handler. A transient
`OperationalError` is retried once on a fresh session (lines 150-158); any
failure that then escapes the inner `try` (the re-`raise` of line 160, a
failing retry, or a non-`OperationalError`) is caught by the outer `except
Exception` (lines 164-166), which answers 200 with status "ignored". -/
def receive_message (o1 o2 : StorageOutcome) : HandlerResult :=
  match storageExc o1 with
  | .ok _ => .response 200 "success".toList false
  | .error .opTransient =>
    match storageExc o2 with
    | .ok _ => .response 200 "success".toList true
    | .error _ => .response 200 "ignored".toList true
  | .error .opOther => .response 200 "ignored".toList false
  | .error .appExc => .response 200 "ignored".toList false

/-! ## Helper lemmas -/

lemma dropWhile_eq_self_of_not {p : Char → Bool} {l : List Char}
    (h : ∀ c ∈ l, p c = false) : l.dropWhile p = l := by
  cases l with
  | nil => rfl
  | cons a t => simp [List.dropWhile_cons, h a (List.mem_cons_self a t)]

lemma pyStrip_eq_self {l : List Char} (h : ∀ c ∈ l, pyIsSpace c = false) :
    pyStrip l = l := by
  unfold pyStrip
  rw [dropWhile_eq_self_of_not h,
    dropWhile_eq_self_of_not (fun c hc => h c (List.mem_reverse.mp hc)),
    List.reverse_reverse]

lemma filter_eq_self_of {l : List Char}
    (h : ∀ c ∈ l, (c.isDigit || c == '+') = true) : filterDigitsPlus l = l := by
  unfold filterDigitsPlus
  exact List.filter_eq_self.mpr h

lemma dp_not_space {c : Char} (h : (c.isDigit || c == '+') = true) :
    pyIsSpace c = false := by
  cases hs : pyIsSpace c
  · rfl
  · exfalso
    simp only [pyIsSpace, Bool.or_eq_true, beq_iff_eq, or_assoc] at hs
    rcases hs with h1 | h1 | h1 | h1 | h1 | h1 <;> subst h1 <;>
      exact absurd h (by decide)

lemma mem_nwStripPlus {c : Char} {l : List Char} (h : c ∈ nwStripPlus l) :
    c ∈ l := by
  unfold nwStripPlus at h
  split_ifs at h
  · exact List.mem_of_mem_tail h
  · exact h

lemma nwTransform_dp {d : List Char}
    (h : ∀ c ∈ d, (c.isDigit || c == '+') = true) :
    ∀ c ∈ nwTransform d, (c.isDigit || c == '+') = true := by
  unfold nwTransform
  split_ifs with h1 h2
  · intro c hc
    rcases List.mem_cons.mp hc with rfl | hc
    · decide
    rcases List.mem_cons.mp hc with rfl | hc
    · decide
    · exact h c (List.mem_of_mem_tail hc)
  · intro c hc
    rcases List.mem_cons.mp hc with rfl | hc
    · decide
    rcases List.mem_cons.mp hc with rfl | hc
    · decide
    · exact h c hc
  · exact h

lemma nwTransform_of_31 (l : List Char) :
    nwTransform ('3' :: '1' :: l) = '3' :: '1' :: l := by
  have a1 : leadsWith ['0'] ('3' :: '1' :: l) = false := by
    simp only [leadsWith]; decide
  have a2 : leadsWith ['3', '1'] ('3' :: '1' :: l) = true := by
    simp only [leadsWith]; decide
  rw [nwTransform, a1, a2]
  simp

lemma nwTransform_idem (d : List Char) :
    nwTransform (nwTransform d) = nwTransform d := by
  by_cases h1 : (leadsWith ['0'] d && decide (9 ≤ d.length)) = true
  · have hd : nwTransform d = '3' :: '1' :: d.tail := by
      rw [nwTransform, if_pos h1]
    rw [hd, nwTransform_of_31]
  · by_cases h2 : (decide (9 ≤ d.length) && !leadsWith ['3', '1'] d &&
        leadsWith ['6'] d) = true
    · have hd : nwTransform d = '3' :: '1' :: d := by
        rw [nwTransform, if_neg h1, if_pos h2]
      rw [hd, nwTransform_of_31]
    · have hd : nwTransform d = d := by
        rw [nwTransform, if_neg h1, if_neg h2]
      rw [hd, hd]

/-! ## Claim theorems -/

/-- C3: `deduct_credit` decrements `credits` by one and increments
`message_count` exactly when the row exists and `credits >= 1`; it returns
`false` with the state unchanged when the guard fails or the row is missing,
and no sequence of calls drives a non-negative balance negative. -/
theorem deduct_credit_correct :
    (∀ (sub : Subscription) (c : Int), sub.credits = some c → 1 ≤ c →
      deduct_credit (some sub) =
        (true, some { sub with credits := some (c - 1),
                               message_count := some (sub.message_count.getD 0 + 1) }))
  ∧ (∀ (sub : Subscription) (c : Int), sub.credits = some c → c < 1 →
      deduct_credit (some sub) = (false, some sub))
  ∧ (∀ (sub : Subscription), sub.credits = none →
      deduct_credit (some sub) = (false, some sub))
  ∧ deduct_credit none = (false, none)
  ∧ (∀ (n : Nat) (sub : Subscription) (c : Int), sub.credits = some c → 0 ≤ c →
      ∃ (sub' : Subscription) (c' : Int), deductIter n (some sub) = some sub' ∧
        sub'.credits = some c' ∧ 0 ≤ c') := by
  refine ⟨?_, ?_, ?_, rfl, ?_⟩
  · intro sub c hc h1
    simp [deduct_credit, hc, not_lt.mpr h1]
  · intro sub c hc h1
    simp [deduct_credit, hc, h1]
  · intro sub hc
    simp [deduct_credit, hc]
  · intro n
    induction n with
    | zero => exact fun sub c hc h0 => ⟨sub, c, rfl, hc, h0⟩
    | succ n ih =>
      intro sub c hc h0
      by_cases hlt : c < 1
      · have hstep : (deduct_credit (some sub)).2 = some sub := by
          simp [deduct_credit, hc, hlt]
        have := ih sub c hc h0
        simpa [deductIter, hstep] using this
      · have hstep : (deduct_credit (some sub)).2 =
            some { sub with
                   credits := some (c - 1),
                   message_count := some (sub.message_count.getD 0 + 1) } := by
          simp [deduct_credit, hc, hlt]
        have := ih { sub with
                     credits := some (c - 1),
                     message_count := some (sub.message_count.getD 0 + 1) }
          (c - 1) rfl (by omega)
        simpa [deductIter, hstep] using this

/-- C3 witness: a trial row with 10 credits is decremented to 9 on one call,
and three calls keep the balance non-negative. -/
theorem deduct_credit_correct_witness :
    deduct_credit (some (trialSub ['x'] 0)) =
      (true, some { trialSub ['x'] 0 with
                    credits := some (10 - 1),
                    message_count := some ((trialSub ['x'] 0).message_count.getD 0 + 1) })
  ∧ ∃ (sub' : Subscription) (c' : Int),
      deductIter 3 (some (trialSub ['x'] 0)) = some sub' ∧
      sub'.credits = some c' ∧ 0 ≤ c' :=
  ⟨deduct_credit_correct.1 (trialSub ['x'] 0) 10 rfl (by decide),
   deduct_credit_correct.2.2.2.2 3 (trialSub ['x'] 0) 10 rfl (by decide)⟩

/-- C10: an update call that carries no explicit credits still re-derives a
grant from the event's plan label (falling back to the stored plan name) and
applies it again — replacing the balance for a monthly plan, adding for a
pre-paid one — while also increasing `total_purchased`. -/
theorem update_without_credits_regrants :
    ∀ (now : Int) (a : UpdatedArgs) (sub : Subscription) (c : Int) (m : Bool),
      a.credits = none →
      plan_credits_from_name (pyOrStr a.plan_name sub.plan_name) = (some c, m) →
      ∃ sub', handle_subscription_updated now a (some sub) = some sub' ∧
        sub'.credits = (if m then some c else some (sub.credits.getD 0 + c)) ∧
        sub'.total_purchased = some (sub.total_purchased.getD 0 + c) := by
  intro now a sub c m hc hpc
  cases ha : a.plan_name <;> cases hs : a.status <;>
    cases hr : a.is_recurring <;> cases he : a.subscription_end <;>
      rw [ha] at hpc <;>
      refine ⟨_, rfl, ?_, ?_⟩ <;>
      simp [handle_subscription_updated, ha, hs, hr, he, hc, hpc]

/-- C10 witness: a bare update event (all fields absent) on an account whose
stored plan name is "Buddy Start" sets the balance to the monthly grant of 75
and raises `total_purchased` by 75, although no purchase data came in. -/
theorem update_without_credits_regrants_witness :
    ∃ sub', handle_subscription_updated 5 ⟨none, none, none, none, none⟩
        (some { trialSub "+31612345678".toList 0 with
                plan_name := some "Buddy Start".toList }) = some sub' ∧
      sub'.credits = (if true then some 75 else
        some (({ trialSub "+31612345678".toList 0 with
                 plan_name := some "Buddy Start".toList } : Subscription).credits.getD 0 + 75)) ∧
      sub'.total_purchased = some (({ trialSub "+31612345678".toList 0 with
                                      plan_name := some "Buddy Start".toList } :
          Subscription).total_purchased.getD 0 + 75) :=
  update_without_credits_regrants 5 ⟨none, none, none, none, none⟩
    { trialSub "+31612345678".toList 0 with plan_name := some "Buddy Start".toList }
    75 true rfl (by decide)

/-- C2 (code bug): for a sender who already has a subscription row, the
dedup record added at whatsapp.py:109 is never committed (the only
`db.commit()` of `_process_webhook_messages` is inside the trial-creation
branch, line 125, and `get_db` closes without committing), so a provider
retry of the same `message_id` queues a second background answer; only for a
previously unknown sender does the duplicate delivery trigger exactly one. -/
theorem dedup_record_not_durable_for_existing_subscriber :
    (deliverTwice ⟨[], [trialSub "31612345678".toList 0]⟩
      "wamid.ABC".toList "31612345678".toList 0).2 = 2
  ∧ (deliverTwice ⟨[], []⟩ "wamid.ABC".toList "31612345678".toList 0).2 = 1 := by
  constructor <;> rfl

/-- C5 counterexample: the trial row created for an unknown inbound sender
(whatsapp.py:115-116) keys on the raw sender string, which differs from the
canonical form the normalizer produces for it. -/
theorem trial_row_stores_raw_sender :
    (processOneMessage ⟨[], []⟩ "wamid.X".toList "31612345678".toList 0).1.subs =
      [trialSub "31612345678".toList 0]
  ∧ (trialSub "31612345678".toList 0).whatsapp_number = "31612345678".toList
  ∧ normalize_whatsapp_number "31612345678".toList = some "+31612345678".toList
  ∧ "31612345678".toList ≠ "+31612345678".toList := by
  refine ⟨rfl, rfl, by decide, by decide⟩

/-- C5 amended: the payment-event creation path stores the normalizer's
canonical form as the account key, but the trial-creation path of the chat
webhook stores the raw sender string unchanged. -/
theorem account_key_normalization :
    (∀ (raw n : List Char) (now : Int) (a : CreatedArgs),
      normalize_whatsapp_number raw = some n →
      handle_subscription_created_raw raw now a none =
        some (handle_subscription_created n now a none)
      ∧ (handle_subscription_created n now a none).whatsapp_number = n)
  ∧ (∀ (db : Db) (mid sender : List Char) (now : Int),
      db.processed.contains mid = false →
      dbFindSub db sender = none →
      (processOneMessage db mid sender now).1.subs = trialSub sender now :: db.subs
      ∧ (trialSub sender now).whatsapp_number = sender) := by
  constructor
  · intro raw n now a h
    refine ⟨?_, rfl⟩
    rw [handle_subscription_created_raw, h]
    rfl
  · intro db mid sender now h1 h2
    refine ⟨?_, rfl⟩
    unfold processOneMessage
    rw [h1, h2]
    rfl

/-- C5 witness: the payment path keys the new account on `+31612345678` for
the raw input `0612345678`, and the chat path keys the trial account on the
raw sender. -/
theorem account_key_normalization_witness :
    (handle_subscription_created_raw "0612345678".toList 0
        ⟨none, none, none, false, none⟩ none =
      some (handle_subscription_created "+31612345678".toList 0
        ⟨none, none, none, false, none⟩ none)
    ∧ (handle_subscription_created "+31612345678".toList 0
        ⟨none, none, none, false, none⟩ none).whatsapp_number =
      "+31612345678".toList)
  ∧ ((processOneMessage ⟨[], []⟩ "wamid.Y".toList "31699999999".toList 7).1.subs =
      trialSub "31699999999".toList 7 :: ([] : List Subscription)
    ∧ (trialSub "31699999999".toList 7).whatsapp_number = "31699999999".toList) :=
  ⟨account_key_normalization.1 "0612345678".toList "+31612345678".toList 0
      ⟨none, none, none, false, none⟩ (by decide),
   account_key_normalization.2 ⟨[], []⟩ "wamid.Y".toList "31699999999".toList 7
      rfl rfl⟩

/-- C6 counterexample: `subscription_renewed` is routed to the status-update
handler, not the payment-application handler (payment_logic.py:337), and no
"expired" spelling is handled at all — `process_webhook_event` returns
`False` for it. -/
theorem dispatch_renewed_and_expired :
    dispatchEvent "subscription_renewed".toList = WebhookRoute.updated
  ∧ WebhookRoute.updated ≠ WebhookRoute.created
  ∧ dispatchEvent "subscription_expired".toList = WebhookRoute.unhandled
  ∧ process_webhook_event_handled "subscription_expired".toList = false := by
  refine ⟨by decide, by decide, by decide, by decide⟩

/-- C6 amended: after lowercasing and stripping, the created/received/sale/
invoice spellings invoke the payment-application handler, the updated AND
renewed spellings invoke the status-update handler, the cancelled/canceled
spellings invoke the cancel handler, and every other event type (including
"expired" forms) is reported unhandled (`False`) without raising. -/
theorem dispatch_event_mapping :
    (∀ e ∈ CREATED_EVENTS, dispatchEvent e = WebhookRoute.created)
  ∧ (∀ e ∈ UPDATED_EVENTS, dispatchEvent e = WebhookRoute.updated)
  ∧ (∀ e ∈ CANCELLED_EVENTS, dispatchEvent e = WebhookRoute.cancelled)
  ∧ dispatchEvent "  Subscription.Created ".toList = WebhookRoute.created
  ∧ (∀ e : List Char,
      CREATED_EVENTS.contains (pyLower (pyStrip e)) = false →
      UPDATED_EVENTS.contains (pyLower (pyStrip e)) = false →
      CANCELLED_EVENTS.contains (pyLower (pyStrip e)) = false →
      dispatchEvent e = WebhookRoute.unhandled
      ∧ process_webhook_event_handled e = false) := by
  refine ⟨by decide, by decide, by decide, by decide, ?_⟩
  intro e h1 h2 h3
  have hd : dispatchEvent e = WebhookRoute.unhandled := by
    rw [dispatchEvent]
    simp only [h1, h2, h3]
    rfl
  exact ⟨hd, by rw [process_webhook_event_handled, hd]; rfl⟩

/-- C6 witness: an explicit unhandled spelling. -/
theorem dispatch_event_mapping_witness :
    dispatchEvent "subscription_paused".toList = WebhookRoute.unhandled
  ∧ process_webhook_event_handled "subscription_paused".toList = false :=
  dispatch_event_mapping.2.2.2.2 "subscription_paused".toList rfl rfl rfl

/-- C7 counterexample: an explicit credits value of 0 is "present", so it
overrides both the plan table and the default, and the created account is
granted zero credits. -/
theorem explicit_zero_hint_grants_zero :
    (resolveCreated ⟨some "start".toList, none, some 0, false, none⟩).1 = 0
  ∧ (handle_subscription_created "+31612345678".toList 0
      ⟨some "start".toList, none, some 0, false, none⟩ none).credits = some 0 := by
  refine ⟨rfl, rfl⟩

/-- C7 amended: the granted amount is the explicit credits value when
present, else the first matching plan-table amount, else the configured
default; it is non-zero whenever the explicit value is absent (table amounts
and the default are positive) or itself non-zero. -/
theorem resolve_credits_order :
    (∀ (a : CreatedArgs) (c : Int), a.credits = some c → (resolveCreated a).1 = c)
  ∧ (∀ (a : CreatedArgs) (p : Int), a.credits = none →
      (plan_credits_from_name a.plan_name).1 = some p → (resolveCreated a).1 = p)
  ∧ (∀ a : CreatedArgs, a.credits = none →
      (plan_credits_from_name a.plan_name).1 = none →
      (resolveCreated a).1 = DEFAULT_PAYMENT_CREDITS)
  ∧ (∀ a : CreatedArgs, a.credits = none → (resolveCreated a).1 ≠ 0)
  ∧ (∀ (a : CreatedArgs) (c : Int), a.credits = some c → c ≠ 0 →
      (resolveCreated a).1 ≠ 0) := by
  have table : ∀ (name : List Char) (c : Int) (m : Bool),
      findPlan PLAN_CREDITS name = some (c, m) → c ≠ 0 := by
    intro name c m h
    simp only [PLAN_CREDITS, findPlan] at h
    split_ifs at h <;> simp_all <;> omega
  have plan : ∀ (pn : Option (List Char)) (p : Int),
      (plan_credits_from_name pn).1 = some p → p ≠ 0 := by
    intro pn p h
    rcases pn with _ | l
    · simp [plan_credits_from_name] at h
    · rw [plan_credits_from_name] at h
      split_ifs at h
      rcases hf : findPlan PLAN_CREDITS (pyStrip (pyLower l)) with _ | cm <;>
        rw [hf] at h
      · simp at h
      · obtain ⟨c, m⟩ := cm
        have hcp : c = p := by simpa using h
        exact hcp ▸ table _ c m hf
  refine ⟨?_, ?_, ?_, ?_, ?_⟩
  · intro a c hc
    simp [resolveCreated, hc]
  · intro a p hc hp
    simp [resolveCreated, hc, hp]
  · intro a hc hp
    simp [resolveCreated, hc, hp]
  · intro a hc
    rcases hp : (plan_credits_from_name a.plan_name).1 with _ | p
    · simp [resolveCreated, hc, hp]
      decide
    · simp [resolveCreated, hc, hp]
      exact plan _ p hp
  · intro a c hc hne
    simp [resolveCreated, hc]
    exact hne

/-- C7 witness: with no explicit credits and plan label "Buddy Pro" the
grant is the table amount 300; with no label at all it is the default 50;
both are non-zero. -/
theorem resolve_credits_order_witness :
    (resolveCreated ⟨some "Buddy Pro".toList, none, none, false, none⟩).1 = 300
  ∧ (resolveCreated ⟨none, none, none, false, none⟩).1 = DEFAULT_PAYMENT_CREDITS
  ∧ (resolveCreated ⟨some "Buddy Pro".toList, none, none, false, none⟩).1 ≠ 0
  ∧ (resolveCreated ⟨none, none, some 7, false, none⟩).1 ≠ 0 :=
  ⟨resolve_credits_order.2.1 ⟨some "Buddy Pro".toList, none, none, false, none⟩
      300 rfl (by decide),
   resolve_credits_order.2.2.1 ⟨none, none, none, false, none⟩ rfl rfl,
   resolve_credits_order.2.2.2.1 ⟨some "Buddy Pro".toList, none, none, false, none⟩ rfl,
   resolve_credits_order.2.2.2.2 ⟨none, none, some 7, false, none⟩ 7 rfl (by decide)⟩

/-- C9 counterexample: a transient storage failure inside payment-event
processing is swallowed by the dispatcher's catch-all, so the payment
webhook performs no retry and answers 200 with body status "ignored" (not
"error"); and had an `OperationalError` reached the handler's retry wrapper,
a failing retry would propagate out of the handler (a 5xx), not produce a
200 body. -/
theorem plugnpay_no_retry_on_storage_failure :
    plugnpay_webhook .failTransient .failTransient =
      HandlerResult.response 200 "ignored".toList false
  ∧ plugnpay_webhook_flow (.error .opTransient) (.error .opTransient) =
      HandlerResult.raised .opTransient := by
  refine ⟨rfl, rfl⟩

/-- C9 amended: storage failures inside payment-event processing always
surface as a 200 response built on the first session (no retry), with body
status "ignored"; the retry-once-with-a-fresh-session behavior lives in the
chat webhook handler, which answers 200 "ignored" when the retry also
fails — neither handler lets a storage failure escape as an exception. -/
theorem storage_failure_handling :
    (∀ o1 o2 : StorageOutcome, plugnpay_webhook o1 o2 =
      HandlerResult.response 200
        (if o1 = .ok then "ok".toList else "ignored".toList) false)
  ∧ (∀ o2 : StorageOutcome, receive_message .failTransient o2 =
      HandlerResult.response 200
        (if o2 = .ok then "success".toList else "ignored".toList) true)
  ∧ (∀ o1 o2 : StorageOutcome, ∃ (st : Nat) (b : List Char) (r : Bool),
      receive_message o1 o2 = HandlerResult.response st b r ∧ st = 200) := by
  refine ⟨?_, ?_, ?_⟩
  · intro o1 o2
    cases o1 <;> cases o2 <;> rfl
  · intro o2
    cases o2 <;> rfl
  · intro o1 o2
    cases o1 <;> cases o2 <;> exact ⟨200, _, _, rfl, rfl⟩

/-- C9 witness: the payment webhook on a double transient failure answers
200 "ignored" without retrying; the chat webhook retried and still answers
200 "ignored"; and every outcome pair yields some 200 response. -/
theorem storage_failure_handling_witness :
    plugnpay_webhook .failTransient .failTransient =
      HandlerResult.response 200
        (if StorageOutcome.failTransient = .ok then "ok".toList else "ignored".toList) false
  ∧ receive_message .failTransient .failOther =
      HandlerResult.response 200
        (if StorageOutcome.failOther = .ok then "success".toList else "ignored".toList) true
  ∧ ∃ (st : Nat) (b : List Char) (r : Bool),
      receive_message .failApp .ok = HandlerResult.response st b r ∧ st = 200 :=
  ⟨storage_failure_handling.1 .failTransient .failTransient,
   storage_failure_handling.2.1 .failOther,
   storage_failure_handling.2.2 .failApp .ok⟩

/-- C4 counterexample: at the boundary `period_end = now` the guard
`subscription_end < now` (payment_logic.py:58) does not fire, so
`verify_subscription` answers `true` although the period end does not lie in
the future. -/
theorem verify_true_at_period_end_boundary :
    verify_subscription 100 (some { trialSub "+31612345678".toList 0 with
                                    is_trial := false,
                                    credits := some 5,
                                    subscription_end := some 100 }) = true
  ∧ ¬ (100 : Int) < 100 := by
  refine ⟨rfl, by decide⟩

/-- C4 amended: `verify_subscription` answers `true` exactly when the row
exists, its status is "active", its `subscription_end` is unset or not
earlier than now, its credits are at least 1, and — for a trial — its
question count is strictly below `TRIAL_MAX_QUESTIONS`. -/
theorem verify_subscription_characterization :
    ∀ (now : Int) (sub? : Option Subscription),
      verify_subscription now sub? = true ↔
        ∃ sub, sub? = some sub ∧
          sub.status = "active".toList ∧
          (∀ e, sub.subscription_end = some e → now ≤ e) ∧
          (∃ c, sub.credits = some c ∧ 1 ≤ c) ∧
          (sub.is_trial = true → sub.message_count.getD 0 < TRIAL_MAX_QUESTIONS) := by
  intro now sub?
  cases sub? with
  | none => simp [verify_subscription]
  | some sub =>
    rcases hend : sub.subscription_end with _ | e <;>
      rcases hcr : sub.credits with _ | c <;>
        cases htr : sub.is_trial <;>
          simp only [verify_subscription, hend, hcr, htr] <;>
          split_ifs <;>
          simp_all

lemma created_credits_monthly (number : List Char) (now : Int) {a : CreatedArgs}
    (s : Option Subscription) (h : (resolveCreated a).2 = true) :
    (handle_subscription_created number now a s).credits =
      some (resolveCreated a).1 := by
  cases s with
  | none => rfl
  | some sub => simp [handle_subscription_created, h]

lemma created_credits_prepaid (number : List Char) (now : Int) {a : CreatedArgs}
    (sub : Subscription) (h : (resolveCreated a).2 = false) :
    (handle_subscription_created number now a (some sub)).credits =
      some (sub.credits.getD 0 + (resolveCreated a).1) := by
  simp [handle_subscription_created, h]

lemma prepaid_fold (number : List Char) (now : Int) :
    ∀ (calls : List CreatedArgs) (sub : Subscription) (c : Int),
      (∀ a ∈ calls, (resolveCreated a).2 = false) → sub.credits = some c →
      ∃ sub', applyCreatedSeq number now calls (some sub) = some sub' ∧
        sub'.credits = some (c + sumGrants calls) := by
  intro calls
  induction calls with
  | nil =>
    intro sub c _ hc
    exact ⟨sub, rfl, by simpa [sumGrants] using hc⟩
  | cons a rest ih =>
    intro sub c hall hc
    have ha : (resolveCreated a).2 = false := hall a (List.mem_cons_self a rest)
    have hcred : (handle_subscription_created number now a (some sub)).credits =
        some (c + (resolveCreated a).1) := by
      rw [created_credits_prepaid number now sub ha, hc]
      rfl
    obtain ⟨sub', h1, h2⟩ := ih (handle_subscription_created number now a (some sub))
      (c + (resolveCreated a).1)
      (fun x hx => hall x (List.mem_cons_of_mem a hx)) hcred
    refine ⟨sub', h1, ?_⟩
    rw [h2]
    simp [sumGrants]
    ring

/-- C1: over a sequence of payment-application calls on one identity, a
recurring (monthly) plan leaves the balance at the last call's resolved
grant, while a non-recurring (pre-paid) plan accumulates: starting from no
account, the final balance is the sum of all resolved grants. -/
theorem apply_payment_balance :
    (∀ (number : List Char) (now : Int) (calls : List CreatedArgs)
       (last : CreatedArgs) (s0 : Option Subscription),
      (∀ a ∈ calls ++ [last], (resolveCreated a).2 = true) →
      ∃ sub', applyCreatedSeq number now (calls ++ [last]) s0 = some sub' ∧
        sub'.credits = some (resolveCreated last).1)
  ∧ (∀ (number : List Char) (now : Int) (calls : List CreatedArgs),
      (∀ a ∈ calls, (resolveCreated a).2 = false) → calls ≠ [] →
      ∃ sub', applyCreatedSeq number now calls none = some sub' ∧
        sub'.credits = some (sumGrants calls)) := by
  constructor
  · intro number now calls last s0 hall
    have hlast : (resolveCreated last).2 = true :=
      hall last (by simp)
    refine ⟨handle_subscription_created number now last
        (applyCreatedSeq number now calls s0), ?_,
      created_credits_monthly number now _ hlast⟩
    unfold applyCreatedSeq
    rw [List.foldl_append]
    rfl
  · intro number now calls hall hne
    rcases calls with _ | ⟨a, rest⟩
    · exact absurd rfl hne
    · have h0 : (handle_subscription_created number now a none).credits =
          some (resolveCreated a).1 := rfl
      obtain ⟨sub', h1, h2⟩ := prepaid_fold number now rest
        (handle_subscription_created number now a none) ((resolveCreated a).1)
        (fun x hx => hall x (List.mem_cons_of_mem a hx)) h0
      refine ⟨sub', h1, ?_⟩
      rw [h2]
      simp [sumGrants]

/-- C1 witness: two monthly events (Start then Pro) end at exactly the Pro
grant of 300; two pre-paid events (50 then 100) starting from no account end
at the sum 150. -/
theorem apply_payment_balance_witness :
    (∃ sub', applyCreatedSeq "+31612345678".toList 0
        ([⟨some "Buddy Start".toList, none, none, false, none⟩] ++
          [⟨some "Buddy Pro".toList, none, none, false, none⟩]) none = some sub' ∧
      sub'.credits =
        some (resolveCreated ⟨some "Buddy Pro".toList, none, none, false, none⟩).1)
  ∧ (∃ sub', applyCreatedSeq "+31612345678".toList 0
        [⟨some "Bundle 50".toList, none, none, false, none⟩,
         ⟨some "Bundle 100".toList, none, none, false, none⟩] none = some sub' ∧
      sub'.credits = some (sumGrants
        [⟨some "Bundle 50".toList, none, none, false, none⟩,
         ⟨some "Bundle 100".toList, none, none, false, none⟩])) :=
  ⟨apply_payment_balance.1 "+31612345678".toList 0
      [⟨some "Buddy Start".toList, none, none, false, none⟩]
      ⟨some "Buddy Pro".toList, none, none, false, none⟩ none (by decide),
   apply_payment_balance.2 "+31612345678".toList 0
      [⟨some "Bundle 50".toList, none, none, false, none⟩,
       ⟨some "Bundle 100".toList, none, none, false, none⟩] (by decide) (by decide)⟩

lemma nwStripPlus_cons_plus (l : List Char) : nwStripPlus ('+' :: l) = l := by
  unfold nwStripPlus
  rw [show leadsWith ['+'] ('+' :: l) = true by simp only [leadsWith]; decide]
  simp

lemma normalize_idem_aux {s y : List Char}
    (h : normalize_whatsapp_number s = some y) :
    normalize_whatsapp_number y = some y := by
  unfold normalize_whatsapp_number at h
  split_ifs at h with h1 h2
  unfold nwFinish at h
  split_ifs at h with h3
  have hy : y = '+' :: nwTransform (nwStripPlus (filterDigitsPlus (pyStrip s))) :=
    (Option.some.inj h).symm
  have hdp : ∀ c ∈ nwTransform (nwStripPlus (filterDigitsPlus (pyStrip s))),
      (c.isDigit || c == '+') = true := by
    apply nwTransform_dp
    intro c hc
    exact (List.mem_filter.mp (mem_nwStripPlus hc)).2
  have hydp : ∀ c ∈ y, (c.isDigit || c == '+') = true := by
    rw [hy]
    intro c hc
    rcases List.mem_cons.mp hc with rfl | hc
    · decide
    · exact hdp c hc
  unfold normalize_whatsapp_number
  rw [pyStrip_eq_self (fun c hc => dp_not_space (hydp c hc)),
    filter_eq_self_of hydp, hy]
  rw [show ('+' :: nwTransform (nwStripPlus (filterDigitsPlus (pyStrip s)))).isEmpty
      = false from rfl]
  rw [if_neg (by simp), if_neg (by simp), nwStripPlus_cons_plus, nwTransform_idem]
  unfold nwFinish
  rw [if_neg h3]

lemma leadsWith_single_false {a b : Char} (h : (a == b) = false) (l : List Char) :
    leadsWith [a] (b :: l) = false := by
  simp only [leadsWith]
  simp [h]

lemma nwStripPlus_no_plus {l : List Char} (h : leadsWith ['+'] l = false) :
    nwStripPlus l = l := by
  unfold nwStripPlus
  rw [h]
  simp

lemma nwFinish_cons (a : Char) (l : List Char) :
    nwFinish (a :: l) = some ('+' :: a :: l) := by
  unfold nwFinish
  rw [if_neg (by simp)]

lemma normalize_nl_mobile_forms {d : List Char} (hlen : d.length = 8)
    (hd : ∀ c ∈ d, c.isDigit = true) :
    normalize_whatsapp_number ('+' :: '3' :: '1' :: '6' :: d) =
      some ('+' :: '3' :: '1' :: '6' :: d)
  ∧ normalize_whatsapp_number ('3' :: '1' :: '6' :: d) =
      some ('+' :: '3' :: '1' :: '6' :: d)
  ∧ normalize_whatsapp_number ('0' :: '6' :: d) =
      some ('+' :: '3' :: '1' :: '6' :: d)
  ∧ normalize_whatsapp_number ('6' :: d) =
      some ('+' :: '3' :: '1' :: '6' :: d) := by
  have dpd : ∀ c ∈ d, (c.isDigit || c == '+') = true := fun c hc => by
    simp [hd c hc]
  have dpcons : ∀ (a : Char), (a.isDigit || a == '+') = true →
      ∀ (l : List Char), (∀ c ∈ l, (c.isDigit || c == '+') = true) →
      ∀ c ∈ a :: l, (c.isDigit || c == '+') = true := by
    intro a ha l hl c hc
    rcases List.mem_cons.mp hc with rfl | hc
    · exact ha
    · exact hl c hc
  have dp6 := dpcons '6' (by decide) d dpd
  have dp16 := dpcons '1' (by decide) _ dp6
  have dp316 := dpcons '3' (by decide) _ dp16
  have dpP := dpcons '+' (by decide) _ dp316
  have dp06 := dpcons '0' (by decide) _ dp6
  have t31 : nwTransform ('3' :: '1' :: '6' :: d) = '3' :: '1' :: '6' :: d :=
    nwTransform_of_31 ('6' :: d)
  refine ⟨?_, ?_, ?_, ?_⟩
  · unfold normalize_whatsapp_number
    rw [pyStrip_eq_self (fun c hc => dp_not_space (dpP c hc)),
      filter_eq_self_of dpP, if_neg (by simp), if_neg (by simp),
      nwStripPlus_cons_plus, t31, nwFinish_cons]
  · unfold normalize_whatsapp_number
    rw [pyStrip_eq_self (fun c hc => dp_not_space (dp316 c hc)),
      filter_eq_self_of dp316, if_neg (by simp), if_neg (by simp),
      nwStripPlus_no_plus (leadsWith_single_false (by decide) _), t31,
      nwFinish_cons]
  · have c1 : (leadsWith ['0'] ('0' :: '6' :: d) &&
        decide (9 ≤ ('0' :: '6' :: d).length)) = true := by
      have hl : ('0' :: '6' :: d).length = 10 := by simp [hlen]
      rw [hl, show leadsWith ['0'] ('0' :: '6' :: d) = true by
        simp only [leadsWith]; decide]
      decide
    have ht : nwTransform ('0' :: '6' :: d) = '3' :: '1' :: '6' :: d := by
      unfold nwTransform
      rw [if_pos c1]
      rfl
    unfold normalize_whatsapp_number
    rw [pyStrip_eq_self (fun c hc => dp_not_space (dp06 c hc)),
      filter_eq_self_of dp06, if_neg (by simp), if_neg (by simp),
      nwStripPlus_no_plus (leadsWith_single_false (by decide) _), ht,
      nwFinish_cons]
  · have l0 : leadsWith ['0'] ('6' :: d) = false :=
      leadsWith_single_false (by decide) _
    have c2 : (decide (9 ≤ ('6' :: d).length) && !leadsWith ['3', '1'] ('6' :: d) &&
        leadsWith ['6'] ('6' :: d)) = true := by
      have hl : ('6' :: d).length = 9 := by simp [hlen]
      have h31 : leadsWith ['3', '1'] ('6' :: d) = false := by
        simp only [leadsWith]
        simp [show ('3' == '6') = false from rfl]
      have h66 : leadsWith ['6'] ('6' :: d) = true := by
        simp only [leadsWith]
        decide
      rw [hl, h31, h66]
      decide
    have ht : nwTransform ('6' :: d) = '3' :: '1' :: '6' :: d := by
      unfold nwTransform
      rw [if_neg (by simp [l0]), if_pos c2]
    unfold normalize_whatsapp_number
    rw [pyStrip_eq_self (fun c hc => dp_not_space (dp6 c hc)),
      filter_eq_self_of dp6, if_neg (by simp), if_neg (by simp),
      nwStripPlus_no_plus (leadsWith_single_false (by decide) _), ht,
      nwFinish_cons]

/-- C8: normalization is idempotent — on any accepted input the produced
canonical form maps to itself — and the four accepted spellings of one Dutch
mobile number (with `+` and country code, bare country code, trunk zero, and
bare 9-digit mobile) all normalize to the same canonical `+316...` form. -/
theorem normalize_idempotent_and_canonical :
    (∀ s y : List Char, normalize_whatsapp_number s = some y →
      normalize_whatsapp_number y = some y)
  ∧ (∀ d : List Char, d.length = 8 → (∀ c ∈ d, c.isDigit = true) →
      normalize_whatsapp_number ('+' :: '3' :: '1' :: '6' :: d) =
        some ('+' :: '3' :: '1' :: '6' :: d)
      ∧ normalize_whatsapp_number ('3' :: '1' :: '6' :: d) =
        some ('+' :: '3' :: '1' :: '6' :: d)
      ∧ normalize_whatsapp_number ('0' :: '6' :: d) =
        some ('+' :: '3' :: '1' :: '6' :: d)
      ∧ normalize_whatsapp_number ('6' :: d) =
        some ('+' :: '3' :: '1' :: '6' :: d)) :=
  ⟨fun _ _ h => normalize_idem_aux h,
   fun _ hlen hd => normalize_nl_mobile_forms hlen hd⟩

/-- C8 witness: the canonical form of `0612345678` is `+31612345678`, which
normalizes to itself, and the four spellings of the mobile number `612345678`
agree on it. -/
theorem normalize_idempotent_and_canonical_witness :
    normalize_whatsapp_number "+31612345678".toList = some "+31612345678".toList
  ∧ (normalize_whatsapp_number ('+' :: '3' :: '1' :: '6' :: "12345678".toList) =
      some ('+' :: '3' :: '1' :: '6' :: "12345678".toList)
    ∧ normalize_whatsapp_number ('3' :: '1' :: '6' :: "12345678".toList) =
      some ('+' :: '3' :: '1' :: '6' :: "12345678".toList)
    ∧ normalize_whatsapp_number ('0' :: '6' :: "12345678".toList) =
      some ('+' :: '3' :: '1' :: '6' :: "12345678".toList)
    ∧ normalize_whatsapp_number ('6' :: "12345678".toList) =
      some ('+' :: '3' :: '1' :: '6' :: "12345678".toList)) :=
  ⟨normalize_idempotent_and_canonical.1 "0612345678".toList
      "+31612345678".toList (by decide),
   normalize_idempotent_and_canonical.2 "12345678".toList (by decide) (by decide)⟩

/-- C4 witness: a fresh trial row (10 credits, 0 questions, far period end)
may transact at time 0. -/
theorem verify_subscription_characterization_witness :
    verify_subscription 0 (some (trialSub "31612345678".toList 0)) = true :=
  (verify_subscription_characterization 0
      (some (trialSub "31612345678".toList 0))).mpr
    ⟨trialSub "31612345678".toList 0, rfl, rfl,
     fun e he => by simp [trialSub, TRIAL_DAYS] at he; omega,
     ⟨10, rfl, by decide⟩, fun _ => by decide⟩

end WaBot
